import Mathlib

/-!
Verification development for the GTAI driver-monitoring repository.

The repository orchestrates periodic analysis of a driver-monitoring video
stream: a session clock drives a schedule of analysis calls (src/Lucid/src/
state/store.ts), results are cached and classified into a discrete alertness
state (src/lib/status.ts, embedded from src/unnamed/part_005, and the
tiered classifier assessDriverState of src/unnamed/part_000).

JavaScript numbers are modelled as rationals (Rat); all numeric literals the
claims touch are exact in both IEEE doubles and rationals, and every compared
quantity is far from the rounding boundary, so outcomes agree with the
floating-point original.  Instants (Date.now()) are integers in milliseconds.
-/

set_option linter.unusedVariables false

namespace GTAI

/-- Driver alertness classification, from src/lib/status.ts. -/
inductive DriverStatus where
  | OK
  | DROWSY_SOON
  | ASLEEP
deriving DecidableEq, Repr

namespace StatusLib

/-- Telemetry record of the 30-second variant of src/lib/types.ts; the fields
read by computeStatus are perclos, headDownDegrees, yawnCount30s, heartRate
and hrvRmssd (the Lucid copy of types.ts shows the same shape with a
15-second yawn counter). -/
structure Telemetry where
  truckId : String
  timestamp : String
  perclos : Rat
  headDownDegrees : Rat
  yawnCount30s : Rat
  heartRate : Rat
  hrvRmssd : Rat
  lat : Rat
  lng : Rat
deriving DecidableEq, Repr

/-- Threshold record from src/lib/types.ts. -/
structure Thresholds where
  perclosHigh : Rat
  headDownDegHigh : Rat
  yawnCountHigh : Rat
  hrLow : Rat
  hrvLow : Rat
  predictionWindowSec : Rat × Rat
deriving DecidableEq, Repr

/-- The worsening test of computeStatus: history.slice(-3) has three entries
with strictly increasing perclos.  history.slice(-3) is the list of the last
three samples (all of them when fewer than three exist). -/
def worseningOf (history : List Telemetry) : Bool :=
  let recent := history.drop (history.length - 3)
  match recent with
  | a :: b :: c :: _ => decide (b.perclos < c.perclos) && decide (a.perclos < b.perclos)
  | _ => false

/-- Risk score of computeStatus: weights 2,1,1,1,1 for the five breached
signals.  The heart-rate and HRV contributions require a positive reading. -/
def riskScoreOf (latest : Telemetry) (th : Thresholds) : Nat :=
  (if th.perclosHigh ≤ latest.perclos then 2 else 0) +
  (if th.headDownDegHigh ≤ latest.headDownDegrees then 1 else 0) +
  (if th.yawnCountHigh ≤ latest.yawnCount30s then 1 else 0) +
  (if 0 < latest.heartRate ∧ latest.heartRate ≤ th.hrLow then 1 else 0) +
  (if 0 < latest.hrvRmssd ∧ latest.hrvRmssd ≤ th.hrvLow then 1 else 0)

/-- Score-based classifier computeStatus from src/lib/status.ts
(src/unnamed/part_005, lines 6-35).  overPerclos is the condition
th.perclosHigh ≤ latest.perclos, the worsening check is worseningOf and the
risk score riskScoreOf. -/
def computeStatus (latest : Option Telemetry) (history : List Telemetry)
    (th : Thresholds) : DriverStatus :=
  match latest with
  | none => .OK
  | some latest =>
    if 3 ≤ riskScoreOf latest th ∧ th.perclosHigh ≤ latest.perclos then .ASLEEP
    else if 2 ≤ riskScoreOf latest th ∧
        (th.perclosHigh ≤ latest.perclos ∨ worseningOf history = true) then .DROWSY_SOON
    else .OK

end StatusLib

/-- Model of JavaScript Number.prototype.toFixed(1) on rationals, for
non-negative values whose scaled-by-ten form is exact (the only values at
which the claims inspect formatted output): round to one decimal and print
as digits, dot, digit. -/
def toFixed1 (q : Rat) : String :=
  let r := q * 10 + 1 / 2
  let scaled : Int := r.num / (r.den : Int)
  toString (scaled / 10) ++ "." ++ toString ((scaled % 10).natAbs)

/-- Model of JavaScript template interpolation of a number that is an
integer (the only case the source interpolates without toFixed that the
claims could reach). -/
def jsNumberToString (q : Rat) : String :=
  if q.den = 1 then toString q.num else toString q

namespace TruckPage

/-- AnalysisResult of the 30-second store variant (src/unnamed/part_009,
lines 7-25), the type consumed by assessDriverState in
src/unnamed/part_000. -/
structure AnalysisResult where
  ts_end : String
  session_id : String
  driver_id : String
  PERCLOS : Rat
  perclos_30s : Rat
  ear_thresh_T : Rat
  pitchdown_avg_30s : Rat
  pitchdown_max_30s : Rat
  droop_time_30s : Rat
  droop_duty_30s : Rat
  pitch_thresh_Tp : Rat
  yawn_count_30s : Rat
  yawn_time_30s : Rat
  yawn_duty_30s : Rat
  yawn_peak_30s : Rat
  confidence : String
  fps : Rat
deriving DecidableEq, Repr

/-- Classification outcome of assessDriverState. -/
structure StateAssessment where
  state : DriverStatus
  reason : String
deriving DecidableEq, Repr

/-- Tiered-signal classifier assessDriverState from src/unnamed/part_000,
lines 661-724: the four ASLEEP guards are tried first, then the three
DROWSY_SOON guards, first match wins. -/
def assessDriverState (sample : Option AnalysisResult) : StateAssessment :=
  match sample with
  | none => { state := .OK, reason := "Awaiting data" }
  | some sample =>
    -- Guard names from the source: highPerclos, severeHeadDrop, yawOverload,
    -- droopHeavy, medPerclos, yawElevated, headTrending, droopElevated.
    if 0.6 ≤ sample.perclos_30s then
      { state := .ASLEEP,
        reason := "High fatigue detected (PERCLOS " ++
          toFixed1 (sample.perclos_30s * 100) ++ "%)" }
    else if sample.pitch_thresh_Tp + 5 ≤ sample.pitchdown_avg_30s ∨
        sample.pitch_thresh_Tp + 8 ≤ sample.pitchdown_max_30s then
      { state := .ASLEEP,
        reason := "Head drop beyond threshold (" ++ toFixed1 sample.pitchdown_avg_30s ++
          "° vs " ++ toFixed1 sample.pitch_thresh_Tp ++ "°)" }
    else if 0.55 ≤ sample.yawn_duty_30s then
      { state := .ASLEEP,
        reason := "Continuous yawning (" ++ toFixed1 (sample.yawn_duty_30s * 100) ++ "% duty)" }
    else if 18 ≤ sample.droop_time_30s ∨ 60 ≤ sample.droop_duty_30s * 100 then
      { state := .ASLEEP,
        reason := "Extended head droop (" ++ toFixed1 sample.droop_time_30s ++ "s down)" }
    else if 0.4 ≤ sample.perclos_30s then
      { state := .DROWSY_SOON,
        reason := "Elevated PERCLOS (" ++ toFixed1 (sample.perclos_30s * 100) ++ "%)" }
    else if 2 ≤ sample.yawn_count_30s ∨ 0.35 ≤ sample.yawn_duty_30s then
      { state := .DROWSY_SOON,
        reason := "Frequent yawning (" ++ jsNumberToString sample.yawn_count_30s ++ " in 30s)" }
    else if (sample.pitch_thresh_Tp ≤ sample.pitchdown_avg_30s ∨
        sample.pitch_thresh_Tp + 4 ≤ sample.pitchdown_max_30s) ∨
        (12 ≤ sample.droop_time_30s ∨ 40 ≤ sample.droop_duty_30s * 100) then
      { state := .DROWSY_SOON,
        reason := "Head pose nearing threshold (avg " ++
          toFixed1 sample.pitchdown_avg_30s ++ "°)" }
    else
      { state := .OK, reason := "Vitals within safe thresholds" }

end TruckPage

/-! Helper evaluations of toFixed1 at the two formatted values the claims
inspect. -/

lemma toFixed1_065100 : toFixed1 ((0.65 : Rat) * 100) = "65.0" := by
  have h : ((0.65 : Rat) * 100 * 10 + 1 / 2) = (1301 : Rat) / 2 := by norm_num
  simp only [toFixed1, h]
  norm_num
  decide

lemma toFixed1_045100 : toFixed1 ((0.45 : Rat) * 100) = "45.0" := by
  have h : ((0.45 : Rat) * 100 * 10 + 1 / 2) = (901 : Rat) / 2 := by norm_num
  simp only [toFixed1, h]
  norm_num
  decide

/-- C5: the tiered classifier tries its ASLEEP guards before its DROWSY_SOON
guards with first match winning, so whenever any ASLEEP guard holds the
state is ASLEEP; a sample with perclos_30s = 0.65 is classified ASLEEP with
a reason containing "65.0%"; and a sample with perclos_30s = 0.45,
yawn_count_30s = 1 and every other signal below its threshold is classified
DROWSY_SOON with a reason containing "45.0%". -/
theorem assessDriverState_tiered_priority :
    (∀ sample : TruckPage.AnalysisResult,
      (0.6 ≤ sample.perclos_30s ∨
       sample.pitch_thresh_Tp + 5 ≤ sample.pitchdown_avg_30s ∨
       sample.pitch_thresh_Tp + 8 ≤ sample.pitchdown_max_30s ∨
       0.55 ≤ sample.yawn_duty_30s ∨
       18 ≤ sample.droop_time_30s ∨ 60 ≤ sample.droop_duty_30s * 100) →
      (TruckPage.assessDriverState (some sample)).state = .ASLEEP) ∧
    (∀ sample : TruckPage.AnalysisResult, sample.perclos_30s = 0.65 →
      (TruckPage.assessDriverState (some sample)).state = .ASLEEP ∧
      ∃ a b, (TruckPage.assessDriverState (some sample)).reason = a ++ "65.0%" ++ b) ∧
    (∀ sample : TruckPage.AnalysisResult,
      sample.perclos_30s = 0.45 → sample.yawn_count_30s = 1 →
      sample.pitchdown_avg_30s < sample.pitch_thresh_Tp →
      sample.pitchdown_max_30s < sample.pitch_thresh_Tp + 4 →
      sample.yawn_duty_30s < 0.35 →
      sample.droop_time_30s < 12 →
      sample.droop_duty_30s * 100 < 40 →
      (TruckPage.assessDriverState (some sample)).state = .DROWSY_SOON ∧
      ∃ a b, (TruckPage.assessDriverState (some sample)).reason = a ++ "45.0%" ++ b) := by
  refine ⟨?_, ?_, ?_⟩
  · intro sample h
    simp only [TruckPage.assessDriverState]
    split_ifs with h1 h2 h3 h4 h5 h6 h7 <;> try rfl
    all_goals
      rcases h with h | h | h | h | h | h
      · exact absurd h h1
      · exact absurd (Or.inl h) h2
      · exact absurd (Or.inr h) h2
      · exact absurd h h3
      · exact absurd (Or.inl h) h4
      · exact absurd (Or.inr h) h4
  · intro sample h
    have hcond : (0.6 : Rat) ≤ sample.perclos_30s := by rw [h]; norm_num
    have heval : TruckPage.assessDriverState (some sample) =
        { state := .ASLEEP,
          reason := "High fatigue detected (PERCLOS " ++
            toFixed1 (sample.perclos_30s * 100) ++ "%)" } := by
      simp only [TruckPage.assessDriverState]
      rw [if_pos hcond]
    rw [heval, h]
    refine ⟨rfl, "High fatigue detected (PERCLOS ", ")", ?_⟩
    rw [toFixed1_065100]
    rfl
  · intro sample hp hy havg hmax hduty htime hdroop
    have h1 : ¬ (0.6 : Rat) ≤ sample.perclos_30s := by rw [hp]; norm_num
    have h2 : ¬ (sample.pitch_thresh_Tp + 5 ≤ sample.pitchdown_avg_30s ∨
        sample.pitch_thresh_Tp + 8 ≤ sample.pitchdown_max_30s) := by
      push_neg
      constructor <;> linarith
    have h3 : ¬ (0.55 : Rat) ≤ sample.yawn_duty_30s := by
      intro hc
      have : (0.35 : Rat) < 0.55 := by norm_num
      linarith
    have h4 : ¬ ((18 : Rat) ≤ sample.droop_time_30s ∨
        60 ≤ sample.droop_duty_30s * 100) := by
      push_neg
      constructor <;> linarith
    have h5 : (0.4 : Rat) ≤ sample.perclos_30s := by rw [hp]; norm_num
    have heval : TruckPage.assessDriverState (some sample) =
        { state := .DROWSY_SOON,
          reason := "Elevated PERCLOS (" ++
            toFixed1 (sample.perclos_30s * 100) ++ "%)" } := by
      simp only [TruckPage.assessDriverState]
      rw [if_neg h1, if_neg h2, if_neg h3, if_neg h4, if_pos h5]
    rw [heval, hp]
    refine ⟨rfl, "Elevated PERCLOS (", ")", ?_⟩
    rw [toFixed1_045100]
    rfl

/-- Concrete sample for the first threshold scenario: perclos_30s = 0.65,
all other signals quiet. -/
def sample065 : TruckPage.AnalysisResult :=
  { ts_end := "2024-01-01T00:00:30Z", session_id := "session_1", driver_id := "demo_driver",
    PERCLOS := 0.65, perclos_30s := 0.65, ear_thresh_T := 0.2,
    pitchdown_avg_30s := 0, pitchdown_max_30s := 0, droop_time_30s := 0,
    droop_duty_30s := 0, pitch_thresh_Tp := 10, yawn_count_30s := 0,
    yawn_time_30s := 0, yawn_duty_30s := 0, yawn_peak_30s := 0,
    confidence := "OK", fps := 30 }

/-- Concrete sample for the second threshold scenario: perclos_30s = 0.45,
one yawn, every other signal below threshold. -/
def sample045 : TruckPage.AnalysisResult :=
  { ts_end := "2024-01-01T00:01:00Z", session_id := "session_1", driver_id := "demo_driver",
    PERCLOS := 0.45, perclos_30s := 0.45, ear_thresh_T := 0.2,
    pitchdown_avg_30s := 2, pitchdown_max_30s := 5, droop_time_30s := 1,
    droop_duty_30s := 0.1, pitch_thresh_Tp := 10, yawn_count_30s := 1,
    yawn_time_30s := 2, yawn_duty_30s := 0.1, yawn_peak_30s := 1,
    confidence := "OK", fps := 30 }

/-- Witness for C5 at the two concrete scenario samples. -/
theorem assessDriverState_tiered_priority_witness :
    ((TruckPage.assessDriverState (some sample065)).state = .ASLEEP ∧
      ∃ a b, (TruckPage.assessDriverState (some sample065)).reason = a ++ "65.0%" ++ b) ∧
    ((TruckPage.assessDriverState (some sample045)).state = .DROWSY_SOON ∧
      ∃ a b, (TruckPage.assessDriverState (some sample045)).reason = a ++ "45.0%" ++ b) :=
  ⟨assessDriverState_tiered_priority.2.1 sample065 rfl,
   assessDriverState_tiered_priority.2.2 sample045 rfl rfl
     (by norm_num [sample045]) (by norm_num [sample045]) (by norm_num [sample045])
     (by norm_num [sample045]) (by norm_num [sample045])⟩

/-- Thresholds used by the score-based classifier scenarios. -/
def scenarioThresholds : StatusLib.Thresholds :=
  { perclosHigh := 0.5, headDownDegHigh := 20, yawnCountHigh := 3,
    hrLow := 50, hrvLow := 20, predictionWindowSec := (60, 90) }

/-- Telemetry sample builder for the score-based classifier scenarios:
perclos p, head-down angle d degrees, heart rate hr, all other vitals
nominal. -/
def mkTelemetry (p d hr : Rat) : StatusLib.Telemetry :=
  { truckId := "T1", timestamp := "2024-01-01T00:00:00Z", perclos := p,
    headDownDegrees := d, yawnCount30s := 0, heartRate := hr,
    hrvRmssd := 30, lat := 0, lng := 0 }

/-- C6 counterexample: with latest perclos 0.3 (below the 0.5 high
threshold), exactly one other weighted signal breached (head-down 25 ≥ 20)
and strictly increasing history [0.1, 0.2, 0.3], the risk score is 1, not
2, so computeStatus returns OK — not DROWSY_SOON as the claim states. -/
theorem computeStatus_one_signal_worsening_is_ok :
    StatusLib.computeStatus (some (mkTelemetry 0.3 25 60))
      [mkTelemetry 0.1 0 60, mkTelemetry 0.2 0 60, mkTelemetry 0.3 25 60]
      scenarioThresholds = .OK := by
  norm_num [StatusLib.computeStatus, StatusLib.riskScoreOf, StatusLib.worseningOf,
    mkTelemetry, scenarioThresholds]

/-- C6 amended: computeStatus returns DROWSY_SOON exactly when the risk
score is ≥ 2, the closure ratio breaches its high threshold or the last 3
history samples have strictly increasing perclos, and the ASLEEP guard
(score ≥ 3 with closure breach) does not fire first.  In the worsening
scenario the latest sample needs two other weighted signals breached for a
score of 2: then history [0.1, 0.2, 0.3] yields DROWSY_SOON via the
monotonic-increase rule, while a non-monotonic history yields OK. -/
theorem computeStatus_drowsy_soon_amended :
    (∀ (latest : StatusLib.Telemetry) (history : List StatusLib.Telemetry)
        (th : StatusLib.Thresholds),
      StatusLib.computeStatus (some latest) history th = .DROWSY_SOON ↔
        (2 ≤ StatusLib.riskScoreOf latest th ∧
         (th.perclosHigh ≤ latest.perclos ∨ StatusLib.worseningOf history = true) ∧
         ¬ (3 ≤ StatusLib.riskScoreOf latest th ∧ th.perclosHigh ≤ latest.perclos))) ∧
    StatusLib.computeStatus (some (mkTelemetry 0.3 25 45))
      [mkTelemetry 0.1 0 60, mkTelemetry 0.2 0 60, mkTelemetry 0.3 25 45]
      scenarioThresholds = .DROWSY_SOON ∧
    StatusLib.computeStatus (some (mkTelemetry 0.3 25 45))
      [mkTelemetry 0.2 0 60, mkTelemetry 0.1 0 60, mkTelemetry 0.3 25 45]
      scenarioThresholds = .OK := by
  refine ⟨?_, ?_, ?_⟩
  · intro latest history th
    simp only [StatusLib.computeStatus]
    split_ifs with h1 h2 <;> simp_all
  · norm_num [StatusLib.computeStatus, StatusLib.riskScoreOf, StatusLib.worseningOf,
      mkTelemetry, scenarioThresholds]
  · norm_num [StatusLib.computeStatus, StatusLib.riskScoreOf, StatusLib.worseningOf,
      mkTelemetry, scenarioThresholds]

/-- C10: with an undefined latest sample, computeStatus is OK for every
history and every thresholds record. -/
theorem computeStatus_undefined_latest_ok :
    ∀ (history : List StatusLib.Telemetry) (th : StatusLib.Thresholds),
      StatusLib.computeStatus none history th = .OK :=
  fun _ _ => rfl

namespace LucidStore

/-!
Embedding of the scheduler store, src/Lucid/src/state/store.ts.

The store is a zustand store mutated through set calls; it is embedded as a
record of the fields the scheduler reads or writes, with each set call a
function from store to store.  The fields holding static UI data (trucks,
telemetryByTruckId, alerts, thresholds, selectedVar) are never touched by
the scheduler, the analysis dispatch or the handlers embedded here and are
omitted from the record.
-/

/-- The string status of a ScheduledCall ("pending" | "processing" |
"completed" | "failed"). -/
inductive CallStatus where
  | pending
  | processing
  | completed
  | failed
deriving DecidableEq, Repr

/-- The ScheduledCall record, store.ts lines 116-121.  lastAttempt is a millisecond
instant, absent until first stamped. -/
structure ScheduledCall where
  timestamp : Int
  status : CallStatus
  attempts : Nat
  lastAttempt : Option Int
deriving DecidableEq, Repr

/-- The CallTracker record, store.ts lines 123-127. -/
structure CallTracker where
  scheduledCalls : List ScheduledCall
  maxRetries : Nat
  retryDelay : Int
deriving DecidableEq, Repr

/-- The AnalysisResult record, store.ts lines 84-109 (15-second window fields plus the
optional enhancement fields filled from the state and vitals
collaborators). -/
structure AnalysisResult where
  ts_end : String
  session_id : String
  driver_id : String
  PERCLOS : Rat
  perclos_15s : Rat
  ear_thresh_T : Rat
  pitchdown_avg_15s : Rat
  pitchdown_max_15s : Rat
  droop_time_15s : Rat
  droop_duty_15s : Rat
  pitch_thresh_Tp : Rat
  yawn_count_15s : Rat
  yawn_time_15s : Rat
  yawn_duty_15s : Rat
  yawn_peak_15s : Rat
  confidence : String
  fps : Rat
  driver_state : Option DriverStatus
  driver_state_label : Option String
  driver_state_reason : Option String
  driver_state_confidence : Option String
  driver_risk_score : Option Rat
  hr_bpm : Option Rat
  hrv_rmssd_ms : Option Rat
deriving DecidableEq, Repr

/-- The CachedAnalysisResult record, store.ts lines 111-114. -/
structure CachedAnalysisResult extends AnalysisResult where
  cached_at : Int
  from_cache : Bool
deriving DecidableEq, Repr

/-- The videoDuration field is a JavaScript number-or-null; NaN is kept
apart because both getStopThreshold and the truthiness test treat it
specially. -/
inductive VideoDuration where
  | null
  | nan
  | num (q : Rat)
deriving DecidableEq, Repr

/-- JavaScript truthiness of videoDuration: null, NaN and 0 are falsy. -/
def VideoDuration.truthy : VideoDuration → Bool
  | .null => false
  | .nan => false
  | .num q => decide (q ≠ 0)

/-- The store record (scheduler-relevant fields of the Store type,
store.ts lines 129-160).  Instants are millisecond integers, the analysis
cache is the JavaScript object keyed by cache-key strings (most recent
binding first), completedCalls is the Set of timestamps in insertion
order. -/
structure Store where
  appStartTime : Int
  globalElapsedTime : Int
  lastApiCallTime : Int
  secondsSinceLastApiCall : Int
  analysisResults : List AnalysisResult
  currentSessionId : String
  isAnalysisRunning : Bool
  videoDuration : VideoDuration
  analysisCache : List (String × CachedAnalysisResult)
  callTracker : CallTracker
  completedCalls : List Int
deriving Repr

/-- Sampling interval constant, store.ts line 38. -/
def SAMPLE_INTERVAL_SECONDS : Int := 15

/-- Minimum sample count constant, store.ts line 39. -/
def MIN_REQUIRED_SAMPLES : Int := 2

/-- Minimum analysis duration constant, store.ts line 40. -/
def MIN_ANALYSIS_DURATION : Int := SAMPLE_INTERVAL_SECONDS * MIN_REQUIRED_SAMPLES

/-- The getStopThreshold helper, store.ts lines 42-47: the minimum analysis duration
when the duration is not a number (null or NaN), otherwise the maximum of
the video duration and the minimum analysis duration. -/
def getStopThreshold (videoDuration : VideoDuration) : Rat :=
  match videoDuration with
  | .null => (MIN_ANALYSIS_DURATION : Rat)
  | .nan => (MIN_ANALYSIS_DURATION : Rat)
  | .num q => max q (MIN_ANALYSIS_DURATION : Rat)

/-- A freshly scheduled call: status pending, attempts 0 (store.ts lines
262-266). -/
def mkPendingCall (timestamp : Int) : ScheduledCall :=
  { timestamp := timestamp, status := .pending, attempts := 0, lastAttempt := none }

/-- The schedule-building loop of startGlobalTimer (store.ts lines 260-267):
for (let timestamp = interval; timestamp <= stopThreshold; timestamp +=
interval) push a pending call.  The loop counter is an integer, the stop
threshold a JavaScript number; the positivity of the interval is what makes
the source loop terminate. -/
def scheduleLoop (interval : Int) (hpos : 0 < interval) (stop : Rat) (t : Int) :
    List ScheduledCall :=
  if h : (t : Rat) ≤ stop then
    mkPendingCall t :: scheduleLoop interval hpos stop (t + interval)
  else []
termination_by (⌊stop⌋ + interval - t).toNat
decreasing_by
  simp_wf
  have ht : t ≤ ⌊stop⌋ := Int.le_floor.mpr (by exact_mod_cast h)
  omega

/-- The full schedule built by startGlobalTimer, starting at the sampling
interval. -/
def buildScheduledCalls (interval : Int) (hpos : 0 < interval) (stop : Rat) :
    List ScheduledCall :=
  scheduleLoop interval hpos stop interval

/-- The schedule startGlobalTimer installs for a given video duration
(store.ts lines 231-267, with the constants of lines 38-40). -/
def startGlobalTimerSchedule (videoDuration : VideoDuration) : List ScheduledCall :=
  buildScheduledCalls SAMPLE_INTERVAL_SECONDS (by norm_num [SAMPLE_INTERVAL_SECONDS])
    (getStopThreshold videoDuration)

/-- The cache key, store.ts line 399: sessionId ++ "_" ++ timestamp. -/
def mkCacheKey (sessionId : String) (timestamp : Int) : String :=
  sessionId ++ "_" ++ toString timestamp

/-- Lookup in the analysis cache object (most recent binding wins). -/
def cacheLookup (cache : List (String × CachedAnalysisResult)) (key : String) :
    Option CachedAnalysisResult :=
  match cache with
  | [] => none
  | (k, v) :: rest => if k = key then some v else cacheLookup rest key

/-- The guard of store.ts lines 406-409: state.videoDuration &&
currentTime > state.videoDuration.  A null, NaN or zero duration is falsy;
a NaN comparison would be false anyway. -/
def beyondVideoDuration : VideoDuration → Int → Bool
  | .num q, t => decide (q ≠ 0) && decide (q < (t : Rat))
  | .null, _ => false
  | .nan, _ => false

/-- Dispatch map of store.ts lines 425-429: the call for the target
timestamp becomes processing, its attempts grow by one and lastAttempt is
stamped; every other call is untouched. -/
def markProcessing (calls : List ScheduledCall) (t now : Int) : List ScheduledCall :=
  calls.map fun call =>
    if call.timestamp = t then
      { call with
        status := .processing
        attempts := call.attempts + 1
        lastAttempt := some now }
    else call

/-- Success map of store.ts lines 597-601: the call for the target
timestamp becomes completed. -/
def markCompleted (calls : List ScheduledCall) (t : Int) : List ScheduledCall :=
  calls.map fun call =>
    if call.timestamp = t then { call with status := .completed } else call

/-- Failure map of store.ts lines 623-627: the call for the target
timestamp becomes failed (nothing else about it changes). -/
def markFailed (calls : List ScheduledCall) (t : Int) : List ScheduledCall :=
  calls.map fun call =>
    if call.timestamp = t then { call with status := .failed } else call

/-- The Set.add insertion on the completed-calls set (store.ts lines 594-595). -/
def addCompleted (completed : List Int) (t : Int) : List Int :=
  if t ∈ completed then completed else completed ++ [t]

/-- The synchronous dispatch set call of store.ts lines 431-433. -/
def pvaDispatch (s : Store) (t now : Int) : Store :=
  { s with callTracker :=
      { s.callTracker with
        scheduledCalls := markProcessing s.callTracker.scheduledCalls t now } }

/-- The success completion handler, store.ts lines 585-617: append the
enhanced result, stamp lastApiCallTime, write the cache entry under the
key computed at entry, add the timestamp to the completed set and mark the
call completed.  It runs as a functional set over the store state current
at completion time. -/
def pvaOnSuccess (s : Store) (cacheKey : String) (t : Int)
    (enhancedResult : AnalysisResult) (now : Int) : Store :=
  { s with
    analysisResults := s.analysisResults ++ [enhancedResult]
    lastApiCallTime := now
    secondsSinceLastApiCall := 0
    analysisCache :=
      (cacheKey, { toAnalysisResult := enhancedResult, cached_at := now,
                   from_cache := false }) :: s.analysisCache
    completedCalls := addCompleted s.completedCalls t
    callTracker :=
      { s.callTracker with
        scheduledCalls := markCompleted s.callTracker.scheduledCalls t } }

/-- The failure handler, store.ts lines 619-632.  The failed schedule is
computed from the scheduledCalls snapshot captured by the const state of
line 396 at dispatch time — not from the store current at failure time —
and then written over the current tracker. -/
def pvaOnFailure (snapshotCalls : List ScheduledCall) (s : Store) (t : Int) : Store :=
  { s with callTracker :=
      { s.callTracker with scheduledCalls := markFailed snapshotCalls t } }

/-- Outcome of the analysis request for one timestamp: success carries the
enhanced result assembled from the window response and the optional
state/vitals collaborator responses; failure covers a thrown request and a
non-ok HTTP status alike. -/
inductive RequestOutcome where
  | success (enhancedResult : AnalysisResult)
  | failure
deriving DecidableEq, Repr

/-- An in-flight analysis request: the target timestamp, the cache key
computed at entry, and the scheduledCalls snapshot captured by the const
state of store.ts line 396. -/
structure InFlight where
  currentTime : Int
  cacheKey : String
  snapshotCalls : List ScheduledCall
deriving DecidableEq, Repr, Inhabited

/-- The synchronous prefix of performVideoAnalysis (store.ts lines
395-433): resolve the target timestamp, run the four skip guards in source
order (non-positive timestamp, beyond video duration, cache hit, already
completed), and otherwise mark the call processing and issue the request,
returning the in-flight request record. -/
def pvaStart (s : Store) (targetTimestamp : Option Int) (now : Int) :
    Store × Option InFlight :=
  let currentTime := targetTimestamp.getD s.globalElapsedTime
  let cacheKey := mkCacheKey s.currentSessionId currentTime
  if currentTime ≤ 0 then (s, none)
  else if beyondVideoDuration s.videoDuration currentTime then (s, none)
  else if (cacheLookup s.analysisCache cacheKey).isSome then (s, none)
  else if currentTime ∈ s.completedCalls then (s, none)
  else (pvaDispatch s currentTime now,
        some { currentTime := currentTime, cacheKey := cacheKey,
               snapshotCalls := s.callTracker.scheduledCalls })

/-- The completion of an in-flight request (store.ts lines 585-632),
running over the store current at completion time. -/
def pvaComplete (s : Store) (req : InFlight) (outcome : RequestOutcome)
    (now : Int) : Store :=
  match outcome with
  | .success r => pvaOnSuccess s req.cacheKey req.currentTime r now
  | .failure => pvaOnFailure req.snapshotCalls s req.currentTime

/-- performVideoAnalysis run to completion with no interleaved operation:
the synchronous prefix followed immediately by the completion handler.
The boolean records whether an analysis request was issued. -/
def performVideoAnalysis (s : Store) (targetTimestamp : Option Int)
    (outcome : RequestOutcome) (dispatchNow completeNow : Int) : Store × Bool :=
  match pvaStart s targetTimestamp dispatchNow with
  | (s1, none) => (s1, false)
  | (s1, some req) => (pvaComplete s1 req outcome completeNow, true)

/-- The truthiness-plus-delay gate of store.ts line 309:
!call.lastAttempt || (now - call.lastAttempt) > retryDelay. -/
def lastAttemptGate (lastAttempt : Option Int) (now retryDelay : Int) : Bool :=
  match lastAttempt with
  | none => true
  | some la => decide (la = 0) || decide (retryDelay < now - la)

/-- The pending-call filter of the tick handler (store.ts lines 295-297). -/
def pendingDue (calls : List ScheduledCall) (elapsed : Int) : List ScheduledCall :=
  calls.filter fun call =>
    decide (call.timestamp ≤ elapsed) && decide (call.status = .pending)

/-- The retry filter of the tick handler (store.ts lines 306-310): failed,
attempts below maxRetries, and the last-attempt gate. -/
def failedNeedingRetry (tr : CallTracker) (now : Int) : List ScheduledCall :=
  tr.scheduledCalls.filter fun call =>
    decide (call.status = .failed) && decide (call.attempts < tr.maxRetries) &&
      lastAttemptGate call.lastAttempt now tr.retryDelay

/-- Whether every scheduled call is completed (store.ts lines 320-322). -/
def allCallsCompleted (calls : List ScheduledCall) : Bool :=
  calls.all fun call => decide (call.status = .completed)

/-- Result of one tick of the interval handler: the store after the
elapsed-time set call, the timestamps handed to performVideoAnalysis
(due pending calls first, then retry-eligible failed calls), and whether
stopGlobalTimer was called. -/
structure TickResult where
  store : Store
  dispatched : List Int
  stopped : Bool
deriving Repr

/-- One tick of the interval handler installed by startGlobalTimer
(store.ts lines 283-328).  stopThreshold is the closure constant computed
at start; now is Date.now() at the tick.  Elapsed seconds are
Math.floor((now - appStartTime)/1000).  The pending and retry filters and
the stop decision all read the snapshot taken right after the elapsed-time
set call; the dispatches themselves run performVideoAnalysis
asynchronously. -/
def timerTick (s : Store) (now : Int) (stopThreshold : Rat) : TickResult :=
  let elapsed := Int.fdiv (now - s.appStartTime) 1000
  let sinceLast := if 0 < s.lastApiCallTime
    then Int.fdiv (now - s.lastApiCallTime) 1000 else elapsed
  let s1 := { s with globalElapsedTime := elapsed, secondsSinceLastApiCall := sinceLast }
  let pendingCalls := pendingDue s1.callTracker.scheduledCalls elapsed
  let retryCalls := failedNeedingRetry s1.callTracker now
  let stopNow :=
    if stopThreshold ≤ (elapsed : Rat) then
      if allCallsCompleted s1.callTracker.scheduledCalls
          || decide (stopThreshold + 15 ≤ (elapsed : Rat)) then true
      else false
    else false
  { store := s1,
    dispatched := pendingCalls.map (fun call => call.timestamp) ++
      retryCalls.map (fun call => call.timestamp),
    stopped := stopNow }

/-- The status of the scheduled call for a given timestamp, if one
exists. -/
def callStatusAt (s : Store) (t : Int) : Option CallStatus :=
  (s.callTracker.scheduledCalls.find? fun call => decide (call.timestamp = t)).map
    fun call => call.status

/-- The scheduled call for a given timestamp, if one exists. -/
def callAt (s : Store) (t : Int) : Option ScheduledCall :=
  s.callTracker.scheduledCalls.find? fun call => decide (call.timestamp = t)

/-- A serial session suffix: each analysis invocation (tick-driven or
direct) runs to completion before the next starts. -/
def runPvaSteps (s : Store) :
    List (Option Int × RequestOutcome × Int × Int) → Store
  | [] => s
  | (tgt, outcome, n1, n2) :: rest =>
    runPvaSteps (performVideoAnalysis s tgt outcome n1 n2).1 rest

/-- Closed form of the schedule-building loop: starting at t it produces one
pending call per multiple t, t+interval, … that is at most the stop
threshold. -/
lemma scheduleLoop_closed (interval : Int) (hpos : 0 < interval) (stop : Rat)
    (t : Int) :
    scheduleLoop interval hpos stop t =
      (List.range (⌊(stop - t) / (interval : Rat)⌋ + 1).toNat).map
        (fun i : Nat => mkPendingCall (t + interval * (i : Int))) := by
  have hIne : ((interval : Rat)) ≠ 0 := by
    exact_mod_cast (by omega : interval ≠ 0)
  have hIpos : (0 : Rat) < (interval : Rat) := by exact_mod_cast hpos
  generalize hn : (⌊stop⌋ + interval - t).toNat = n
  induction n using Nat.strong_induction_on generalizing t with
  | _ n ih =>
    rw [scheduleLoop]
    by_cases h : (t : Rat) ≤ stop
    · rw [dif_pos h]
      have hmeasure : t ≤ ⌊stop⌋ := Int.le_floor.mpr h
      have hrec := ih (⌊stop⌋ + interval - (t + interval)).toNat
        (by omega) (t + interval) rfl
      rw [hrec]
      have hstep : (stop - t) / (interval : Rat) =
          (stop - (t + interval)) / (interval : Rat) + 1 := by
        field_simp
        ring
      have hfl : ⌊(stop - t) / (interval : Rat)⌋ =
          ⌊(stop - (t + interval)) / (interval : Rat)⌋ + 1 := by
        rw [hstep]
        exact_mod_cast Int.floor_add_one ((stop - (t + interval)) / (interval : Rat))
      have hnonneg : 0 ≤ ⌊(stop - t) / (interval : Rat)⌋ :=
        Int.floor_nonneg.mpr (div_nonneg (by linarith) (le_of_lt hIpos))
      have htn : (⌊(stop - t) / (interval : Rat)⌋ + 1).toNat =
          (⌊(stop - (t + interval)) / (interval : Rat)⌋ + 1).toNat + 1 := by
        omega
      rw [htn, List.range_succ_eq_map, List.map_cons, List.map_map]
      congr 1
      · simp
      · push_cast
        apply List.map_congr_left
        intro i _
        simp only [Function.comp_apply]
        congr 1
        push_cast
        ring
    · rw [dif_neg h]
      have hlt : stop < (t : Rat) := lt_of_not_le h
      have hneg : (stop - t) / (interval : Rat) < 0 :=
        div_neg_of_neg_of_pos (by linarith) hIpos
      have hfl : ⌊(stop - t) / (interval : Rat)⌋ < 0 := by
        exact_mod_cast Int.floor_lt.mpr (by exact_mod_cast hneg)
      have : (⌊(stop - t) / (interval : Rat)⌋ + 1).toNat = 0 := by omega
      rw [this]
      rfl

/-- Closed form of the full schedule: floor(stopThreshold / interval)
pending calls at timestamps interval, 2*interval, …. -/
lemma buildScheduledCalls_closed (interval : Int) (hpos : 0 < interval)
    (stop : Rat) :
    buildScheduledCalls interval hpos stop =
      (List.range (⌊stop / (interval : Rat)⌋).toNat).map
        (fun i : Nat => mkPendingCall (interval * ((i : Int) + 1))) := by
  have hIne : ((interval : Rat)) ≠ 0 := by
    exact_mod_cast (by omega : interval ≠ 0)
  rw [buildScheduledCalls, scheduleLoop_closed]
  have hstep : (stop - interval) / (interval : Rat) = stop / (interval : Rat) - 1 := by
    rw [sub_div, div_self hIne]
  have hfl : ⌊(stop - interval) / (interval : Rat)⌋ + 1 = ⌊stop / (interval : Rat)⌋ := by
    rw [hstep]
    have := Int.floor_sub_int (stop / (interval : Rat)) 1
    push_cast at this
    omega
  rw [hfl]
  apply List.map_congr_left
  intro i _
  congr 1
  ring

/-- C4: getStopThreshold is the interval times the minimum sample count when
the duration is unknown (null) or NaN, and otherwise the maximum of the
duration and that minimum; the schedule built by startGlobalTimer is exactly
the pending calls at interval, 2*interval, …, with floor(stopThreshold /
interval) entries, each pending with zero attempts; and for interval 30 and
stop threshold 90 the schedule is exactly [30, 60, 90]. -/
theorem startGlobalTimer_schedule_correct :
    getStopThreshold .null = ((SAMPLE_INTERVAL_SECONDS * MIN_REQUIRED_SAMPLES : Int) : Rat) ∧
    getStopThreshold .nan = ((SAMPLE_INTERVAL_SECONDS * MIN_REQUIRED_SAMPLES : Int) : Rat) ∧
    (∀ q, getStopThreshold (.num q) =
      max q ((SAMPLE_INTERVAL_SECONDS * MIN_REQUIRED_SAMPLES : Int) : Rat)) ∧
    (∀ (interval : Int) (hpos : 0 < interval) (stop : Rat),
      buildScheduledCalls interval hpos stop =
        (List.range (⌊stop / (interval : Rat)⌋).toNat).map
          (fun i : Nat => mkPendingCall (interval * ((i : Int) + 1))) ∧
      (buildScheduledCalls interval hpos stop).length =
        (⌊stop / (interval : Rat)⌋).toNat ∧
      (∀ c ∈ buildScheduledCalls interval hpos stop,
        c.status = .pending ∧ c.attempts = 0)) ∧
    buildScheduledCalls 30 (by norm_num) 90 =
      [mkPendingCall 30, mkPendingCall 60, mkPendingCall 90] := by
  refine ⟨rfl, rfl, fun q => rfl, ?_, ?_⟩
  · intro interval hpos stop
    refine ⟨buildScheduledCalls_closed interval hpos stop, ?_, ?_⟩
    · rw [buildScheduledCalls_closed]
      simp
    · rw [buildScheduledCalls_closed]
      intro c hc
      rcases List.mem_map.mp hc with ⟨i, _, rfl⟩
      exact ⟨rfl, rfl⟩
  · rw [buildScheduledCalls_closed]
    have h3 : ⌊(90 : Rat) / ((30 : Int) : Rat)⌋ = 3 := by norm_num
    rw [h3]
    decide

/-- Witness for C4: the schedule of the shipped configuration (interval 15)
for a 64-second video runs 15, 30, 45, 60. -/
theorem startGlobalTimer_schedule_correct_witness :
    buildScheduledCalls 15 (by norm_num) 64 =
      [mkPendingCall 15, mkPendingCall 30, mkPendingCall 45, mkPendingCall 60] := by
  have h := (startGlobalTimer_schedule_correct.2.2.2.1 15 (by norm_num) 64).1
  rw [h]
  have h4 : ⌊(64 : Rat) / ((15 : Int) : Rat)⌋ = 4 := by norm_num
  rw [h4]
  decide

/-- C1: whenever the analysis cache holds an entry for the current session
and timestamp t, or t is already in the completed set, performVideoAnalysis
returns without issuing a request (the boolean is false) and returns the
store exactly as it was — neither the cache, the completed set, the call
tracker nor analysisResults change — for every request outcome. -/
theorem performVideoAnalysis_idempotent_skip :
    ∀ (s : Store) (t : Int) (outcome : RequestOutcome) (n1 n2 : Int),
      ((cacheLookup s.analysisCache (mkCacheKey s.currentSessionId t)).isSome = true ∨
        t ∈ s.completedCalls) →
      performVideoAnalysis s (some t) outcome n1 n2 = (s, false) := by
  intro s t outcome n1 n2 h
  simp only [performVideoAnalysis, pvaStart, Option.getD_some]
  split_ifs with h1 h2 h3 h4
  · rfl
  · rfl
  · rfl
  · rfl
  · rcases h with hc | hc
    · exact absurd hc (by simpa using h3)
    · exact absurd hc h4

/-- Store with the call for timestamp 15 already completed and cached. -/
def completedStore : Store :=
  { appStartTime := 0, globalElapsedTime := 20, lastApiCallTime := 15200,
    secondsSinceLastApiCall := 5, analysisResults := [],
    currentSessionId := "session_1", isAnalysisRunning := false,
    videoDuration := .null, analysisCache := [],
    callTracker := { scheduledCalls := [mkPendingCall 15, mkPendingCall 30],
                     maxRetries := 3, retryDelay := 5000 },
    completedCalls := [15] }

/-- Witness for C1: re-dispatching timestamp 15 on completedStore is a
no-op that issues nothing. -/
theorem performVideoAnalysis_idempotent_skip_witness :
    performVideoAnalysis completedStore (some 15) .failure 20000 20400 =
      (completedStore, false) :=
  performVideoAnalysis_idempotent_skip completedStore 15 .failure 20000 20400
    (Or.inr (by decide))

/-- allCallsCompleted is the pointwise completion of every call. -/
lemma allCallsCompleted_iff (calls : List ScheduledCall) :
    allCallsCompleted calls = true ↔ ∀ c ∈ calls, c.status = .completed := by
  simp [allCallsCompleted, List.all_eq_true]

/-- C7: a tick stops the session clock exactly when the elapsed seconds have
reached the stop threshold and either every scheduled call is completed or
the elapsed seconds have reached the stop threshold plus the 15-second
interval; a tick below the threshold never stops the clock, and any tick at
or past the threshold with all calls completed stops it. -/
theorem timerTick_stop_iff :
    ∀ (s : Store) (now : Int) (stopThreshold : Rat) (elapsed : Int),
      elapsed = Int.fdiv (now - s.appStartTime) 1000 →
      (((timerTick s now stopThreshold).stopped = true ↔
        (stopThreshold ≤ (elapsed : Rat) ∧
          ((∀ c ∈ s.callTracker.scheduledCalls, c.status = .completed) ∨
            stopThreshold + 15 ≤ (elapsed : Rat)))) ∧
      ((elapsed : Rat) < stopThreshold →
        (timerTick s now stopThreshold).stopped = false) ∧
      ((∀ c ∈ s.callTracker.scheduledCalls, c.status = .completed) →
        stopThreshold ≤ (elapsed : Rat) →
        (timerTick s now stopThreshold).stopped = true)) := by
  intro s now stopThreshold elapsed helapsed
  subst helapsed
  refine ⟨?_, ?_, ?_⟩
  · simp only [timerTick]
    split_ifs with h1 h2
    · simp only [true_iff]
      refine ⟨h1, ?_⟩
      rcases Bool.or_eq_true _ _ |>.mp h2 with ha | hb
      · exact Or.inl ((allCallsCompleted_iff _).mp ha)
      · exact Or.inr (of_decide_eq_true hb)
    · simp only [Bool.false_eq_true, false_iff, not_and, not_or]
      intro _
      constructor
      · intro hall
        exact h2 (Bool.or_eq_true _ _ |>.mpr
          (Or.inl ((allCallsCompleted_iff _).mpr hall)))
      · intro hge
        exact h2 (Bool.or_eq_true _ _ |>.mpr (Or.inr (decide_eq_true hge)))
    · simp only [Bool.false_eq_true, false_iff, not_and]
      intro hle
      exact absurd hle h1
  · intro hlt
    simp only [timerTick]
    rw [if_neg (not_le.mpr hlt)]
  · intro hall hge
    simp only [timerTick]
    rw [if_pos hge, if_pos]
    exact Bool.or_eq_true _ _ |>.mpr (Or.inl ((allCallsCompleted_iff _).mpr hall))

/-- A call for timestamp 15 that completed on its first attempt. -/
def completedCall15 : ScheduledCall :=
  { timestamp := 15, status := .completed, attempts := 1, lastAttempt := some 15000 }

/-- Store whose single scheduled call is completed, for the C7 witness. -/
def finishedStore : Store :=
  { appStartTime := 0, globalElapsedTime := 29, lastApiCallTime := 15200,
    secondsSinceLastApiCall := 5, analysisResults := [],
    currentSessionId := "session_1", isAnalysisRunning := false,
    videoDuration := .null, analysisCache := [],
    callTracker :=
      { scheduledCalls := [completedCall15], maxRetries := 3, retryDelay := 5000 },
    completedCalls := [15] }

/-- Witness for C7: with every call completed, the first tick whose elapsed
seconds reach the threshold (30) stops the clock. -/
theorem timerTick_stop_iff_witness :
    (timerTick finishedStore 30000 30).stopped = true :=
  (timerTick_stop_iff finishedStore 30000 30 30 (by decide)).2.2
    (by decide) (by norm_num)

/-- An enhanced analysis result as the success handler receives it (all
signal fields quiet, no collaborator enhancements). -/
def demoResult : AnalysisResult :=
  { ts_end := "2024-01-01T00:00:15Z", session_id := "session_1",
    driver_id := "demo_driver", PERCLOS := 0, perclos_15s := 0,
    ear_thresh_T := 0, pitchdown_avg_15s := 0, pitchdown_max_15s := 0,
    droop_time_15s := 0, droop_duty_15s := 0, pitch_thresh_Tp := 0,
    yawn_count_15s := 0, yawn_time_15s := 0, yawn_duty_15s := 0,
    yawn_peak_15s := 0, confidence := "OK", fps := 30, driver_state := none,
    driver_state_label := none, driver_state_reason := none,
    driver_state_confidence := none, driver_risk_score := none,
    hr_bpm := none, hrv_rmssd_ms := none }

/-- A fresh session at elapsed 30 s with the schedule [15, 30] still
pending: the state in which the tick handler dispatches both calls in the
same tick, leaving two requests in flight at once. -/
def overlapStore : Store :=
  { appStartTime := 0, globalElapsedTime := 30, lastApiCallTime := 0,
    secondsSinceLastApiCall := 30, analysisResults := [],
    currentSessionId := "session_1", isAnalysisRunning := false,
    videoDuration := .null, analysisCache := [],
    callTracker := { scheduledCalls := [mkPendingCall 15, mkPendingCall 30],
                     maxRetries := 3, retryDelay := 5000 },
    completedCalls := [] }

/-- Dispatch of the call for 15 s (synchronous prefix of
performVideoAnalysis run by the tick handler). -/
def overlapStepA : Store × Option InFlight := pvaStart overlapStore (some 15) 30000

/-- Dispatch of the call for 30 s, issued by the same tick while the
request for 15 s is still in flight. -/
def overlapStepB : Store × Option InFlight := pvaStart overlapStepA.1 (some 30) 30100

/-- The request for 15 s completes successfully. -/
def overlapAfterSuccess : Store :=
  pvaComplete overlapStepB.1 (overlapStepA.2.getD default) (.success demoResult) 30600

/-- The request for 30 s then fails; its failure handler rewrites the
schedule from the snapshot it captured at dispatch time. -/
def overlapAfterFailure : Store :=
  pvaComplete overlapAfterSuccess (overlapStepB.2.getD default) .failure 30700

/-- C2: a concrete execution of the code in which a scheduled call moves
backwards from Completed to Processing: the calls for 15 s and 30 s are
dispatched in the same tick, the request for 15 s completes (call 15 is
Completed), and when the request for 30 s fails its handler overwrites the
schedule with its dispatch-time snapshot, in which call 15 was still
Processing.  Both requests were genuinely issued (neither dispatch was
skipped). -/
theorem scheduledCall_completed_to_processing :
    overlapStepA.2.isSome = true ∧ overlapStepB.2.isSome = true ∧
    callStatusAt overlapAfterSuccess 15 = some .completed ∧
    callStatusAt overlapAfterFailure 15 = some .processing :=
  ⟨rfl, rfl, rfl, rfl⟩

/-- A fresh session at elapsed 15 s with the single scheduled call [15]
pending. -/
def retryStore : Store :=
  { appStartTime := 0, globalElapsedTime := 15, lastApiCallTime := 0,
    secondsSinceLastApiCall := 15, analysisResults := [],
    currentSessionId := "session_1", isAnalysisRunning := false,
    videoDuration := .null, analysisCache := [],
    callTracker := { scheduledCalls := [mkPendingCall 15],
                     maxRetries := 3, retryDelay := 5000 },
    completedCalls := [] }

/-- First failed attempt for timestamp 15. -/
def retryAfter1 : Store := (performVideoAnalysis retryStore (some 15) .failure 15000 15400).1

/-- Second failed attempt. -/
def retryAfter2 : Store := (performVideoAnalysis retryAfter1 (some 15) .failure 16000 16400).1

/-- Third failed attempt. -/
def retryAfter3 : Store := (performVideoAnalysis retryAfter2 (some 15) .failure 17000 17400).1

/-- C3: after three failed attempts the call still records attempts 0 and
no lastAttempt — the failure handler restored the dispatch-time snapshot,
losing the increment and the stamp — so the tick retry filter selects it
again a single millisecond later (far below the 5000 ms retry delay) and a
fourth request is issued.  The retry bound and the retry spacing are both
unenforced. -/
theorem scheduledCall_retry_unbounded :
    callAt retryAfter3 15 =
      some { timestamp := 15, status := .failed, attempts := 0, lastAttempt := none } ∧
    (failedNeedingRetry retryAfter3.callTracker 17401).map
      (fun call => call.timestamp) = [15] ∧
    (performVideoAnalysis retryAfter3 (some 15) .failure 17401 17800).2 = true :=
  ⟨rfl, rfl, rfl⟩

/-- C8 counterexample: in the trace of overlapStore, the failure of the
request for 30 s marks call 30 Failed but also changes the status of call
15 — a call other than the failing one — because the handler rewrites the
whole schedule from its dispatch-time snapshot. -/
theorem failure_handler_changes_other_call :
    callStatusAt overlapAfterFailure 30 = some .failed ∧
    callStatusAt overlapAfterSuccess 15 ≠ callStatusAt overlapAfterFailure 15 :=
  ⟨rfl, by decide⟩

/-- C8 amended: a failed request writes no cache entry and leaves the
completed set and analysisResults untouched; when the request was actually
issued (no skip guard fired) the schedule after the failure equals the
dispatch-time snapshot with the target call marked Failed, so the target
ends Failed at its snapshot attempts, and every call other than the target
keeps its snapshot value — unchanged whenever no other request completed in
between. -/
theorem pva_failure_amended :
    ∀ (s : Store) (t n1 n2 : Int),
      ((performVideoAnalysis s (some t) .failure n1 n2).1.analysisCache =
          s.analysisCache ∧
        (performVideoAnalysis s (some t) .failure n1 n2).1.completedCalls =
          s.completedCalls ∧
        (performVideoAnalysis s (some t) .failure n1 n2).1.analysisResults =
          s.analysisResults) ∧
      (¬ t ≤ 0 →
        beyondVideoDuration s.videoDuration t = false →
        cacheLookup s.analysisCache (mkCacheKey s.currentSessionId t) = none →
        t ∉ s.completedCalls →
        (performVideoAnalysis s (some t) .failure n1 n2).1.callTracker.scheduledCalls =
          markFailed s.callTracker.scheduledCalls t) ∧
      (∀ c ∈ s.callTracker.scheduledCalls, c.timestamp = t →
        { c with status := CallStatus.failed } ∈
          markFailed s.callTracker.scheduledCalls t) ∧
      (∀ c ∈ s.callTracker.scheduledCalls, c.timestamp ≠ t →
        c ∈ markFailed s.callTracker.scheduledCalls t) := by
  intro s t n1 n2
  refine ⟨?_, ?_, ?_, ?_⟩
  · simp only [performVideoAnalysis, pvaStart, Option.getD_some]
    split_ifs <;>
      simp [pvaComplete, pvaOnFailure, pvaDispatch]
  · intro h1 h2 h3 h4
    simp only [performVideoAnalysis, pvaStart, Option.getD_some]
    rw [if_neg h1, if_neg (by simp [h2]), if_neg (by simp [h3]), if_neg h4]
    rfl
  · intro c hc hct
    exact List.mem_map.mpr ⟨c, hc, by rw [if_pos hct]⟩
  · intro c hc hct
    exact List.mem_map.mpr ⟨c, hc, by rw [if_neg hct]⟩

/-- Witness for the amended C8 on overlapStore: a failed request for 15 s
leaves the cache alone and yields the snapshot schedule with call 15
failed. -/
theorem pva_failure_amended_witness :
    (performVideoAnalysis overlapStore (some 15) .failure 15000 15400).1.analysisCache =
      overlapStore.analysisCache ∧
    (performVideoAnalysis overlapStore (some 15) .failure 15000 15400).1.callTracker.scheduledCalls =
      markFailed overlapStore.callTracker.scheduledCalls 15 :=
  ⟨(pva_failure_amended overlapStore 15 15000 15400).1.1,
   (pva_failure_amended overlapStore 15 15000 15400).2.1
     (by decide) rfl rfl (by decide)⟩

/-- A session whose video metadata reported duration 0: the duration is
known (a number), yet falsy, so the beyond-duration guard is skipped. -/
def zeroDurationStore : Store :=
  { appStartTime := 0, globalElapsedTime := 15, lastApiCallTime := 0,
    secondsSinceLastApiCall := 15, analysisResults := [],
    currentSessionId := "session_1", isAnalysisRunning := false,
    videoDuration := .num 0, analysisCache := [],
    callTracker := { scheduledCalls := [mkPendingCall 15, mkPendingCall 30],
                     maxRetries := 3, retryDelay := 5000 },
    completedCalls := [] }

/-- C9 counterexample: with a known videoDuration of 0 and target timestamp
15 > 0 = videoDuration, performVideoAnalysis does not return immediately —
it issues the request and mutates the call tracker — because the
JavaScript guard tests truthiness and 0 is falsy. -/
theorem pva_known_zero_duration_dispatches :
    (performVideoAnalysis zeroDurationStore (some 15) .failure 15000 15400).2 = true ∧
    callStatusAt zeroDurationStore 15 = some .pending ∧
    callStatusAt (performVideoAnalysis zeroDurationStore (some 15) .failure 15000 15400).1 15 =
      some .failed := by
  refine ⟨?_, rfl, ?_⟩ <;>
    simp [performVideoAnalysis, pvaStart, pvaComplete, pvaOnFailure, pvaDispatch,
      beyondVideoDuration, zeroDurationStore, cacheLookup, mkCacheKey,
      callStatusAt, markFailed, markProcessing, mkPendingCall]

/-- A targeted schedule update (the call for timestamp t is rewritten by g,
every other call kept) preserves the invariant that calls beyond the video
duration are pending, provided g keeps timestamps and t is within the
duration. -/
lemma targeted_update_keeps_far_pending (d : Rat) (calls : List ScheduledCall)
    (t : Int) (g : ScheduledCall → ScheduledCall)
    (hg : ∀ c, (g c).timestamp = c.timestamp)
    (hinv : ∀ c ∈ calls, d < (c.timestamp : Rat) → c.status = .pending)
    (ht : (t : Rat) ≤ d) :
    ∀ c ∈ calls.map (fun c0 => if c0.timestamp = t then g c0 else c0),
      d < (c.timestamp : Rat) → c.status = .pending := by
  intro c hc hlt
  rcases List.mem_map.mp hc with ⟨c0, hc0, hfc⟩
  by_cases he : c0.timestamp = t
  · rw [if_pos he] at hfc
    subst hfc
    rw [hg c0, he] at hlt
    exact absurd hlt (not_lt.mpr (by exact_mod_cast ht))
  · rw [if_neg he] at hfc
    subst hfc
    exact hinv c0 hc0 hlt

/-- One analysis invocation preserves the video duration and the
beyond-duration-calls-stay-pending invariant when the duration is a nonzero
number. -/
lemma pva_preserves_far_pending (s : Store) (tgt : Option Int)
    (oc : RequestOutcome) (n1 n2 : Int) (d : Rat)
    (hd : s.videoDuration = .num d) (hd0 : d ≠ 0)
    (hinv : ∀ c ∈ s.callTracker.scheduledCalls,
      d < (c.timestamp : Rat) → c.status = .pending) :
    (performVideoAnalysis s tgt oc n1 n2).1.videoDuration = .num d ∧
    ∀ c ∈ (performVideoAnalysis s tgt oc n1 n2).1.callTracker.scheduledCalls,
      d < (c.timestamp : Rat) → c.status = .pending := by
  simp only [performVideoAnalysis, pvaStart]
  split_ifs with h1 h2 h3 h4
  · exact ⟨hd, hinv⟩
  · exact ⟨hd, hinv⟩
  · exact ⟨hd, hinv⟩
  · exact ⟨hd, hinv⟩
  · have ht : ((tgt.getD s.globalElapsedTime : Int) : Rat) ≤ d := by
      rw [hd] at h2
      by_contra hc
      push_neg at hc
      exact h2 (by simp [beyondVideoDuration, hd0, hc])
    cases oc with
    | success r =>
      refine ⟨hd, ?_⟩
      show ∀ c ∈ markCompleted (markProcessing s.callTracker.scheduledCalls
          (tgt.getD s.globalElapsedTime) n1) (tgt.getD s.globalElapsedTime),
        d < (c.timestamp : Rat) → c.status = .pending
      simp only [markCompleted, markProcessing]
      apply targeted_update_keeps_far_pending d _ _
        (fun call => { call with status := CallStatus.completed }) (fun c => rfl) _ ht
      apply targeted_update_keeps_far_pending d _ _
        (fun call => { call with
          status := CallStatus.processing
          attempts := call.attempts + 1
          lastAttempt := some n1 }) (fun c => rfl) hinv ht
    | failure =>
      refine ⟨hd, ?_⟩
      show ∀ c ∈ markFailed s.callTracker.scheduledCalls
          (tgt.getD s.globalElapsedTime),
        d < (c.timestamp : Rat) → c.status = .pending
      simp only [markFailed]
      exact targeted_update_keeps_far_pending d _ _
        (fun call => { call with status := CallStatus.failed }) (fun c => rfl) hinv ht

/-- C9 amended: a non-positive target timestamp, or a target beyond a known
nonzero video duration, makes performVideoAnalysis return immediately with
no request and no state change; consequently, while the duration stays a
nonzero number, a scheduled call beyond the duration stays pending across
any serial sequence of analysis invocations — in particular for a short
video every scheduled timestamp past the video end keeps status pending for
the whole session. -/
theorem pva_duration_guard_amended :
    (∀ (s : Store) (t : Int) (oc : RequestOutcome) (n1 n2 : Int),
      (t ≤ 0 ∨ ∃ d, s.videoDuration = .num d ∧ d ≠ 0 ∧ d < (t : Rat)) →
      performVideoAnalysis s (some t) oc n1 n2 = (s, false)) ∧
    (∀ (s : Store) (d : Rat)
        (steps : List (Option Int × RequestOutcome × Int × Int)),
      s.videoDuration = .num d → d ≠ 0 →
      (∀ c ∈ s.callTracker.scheduledCalls,
        d < (c.timestamp : Rat) → c.status = .pending) →
      ∀ c ∈ (runPvaSteps s steps).callTracker.scheduledCalls,
        d < (c.timestamp : Rat) → c.status = .pending) := by
  constructor
  · intro s t oc n1 n2 h
    simp only [performVideoAnalysis, pvaStart, Option.getD_some]
    rcases h with h | ⟨d, hd, hd0, hdt⟩
    · rw [if_pos h]
    · by_cases ht : t ≤ 0
      · rw [if_pos ht]
      · rw [if_neg ht, if_pos (by rw [hd]; simp [beyondVideoDuration, hd0, hdt])]
  · intro s d steps
    induction steps generalizing s with
    | nil => exact fun hd hd0 hinv => hinv
    | cons step rest ih =>
      intro hd hd0 hinv
      obtain ⟨tgt, oc, a, b⟩ := step
      simp only [runPvaSteps]
      have h := pva_preserves_far_pending s tgt oc a b d hd hd0 hinv
      exact ih _ h.1 hd0 h.2

/-- A session over a 10-second video: the schedule still contains 15 and
30, both beyond the video end. -/
def shortVideoStore : Store :=
  { appStartTime := 0, globalElapsedTime := 20, lastApiCallTime := 0,
    secondsSinceLastApiCall := 20, analysisResults := [],
    currentSessionId := "session_1", isAnalysisRunning := false,
    videoDuration := .num 10, analysisCache := [],
    callTracker := { scheduledCalls := [mkPendingCall 15, mkPendingCall 30],
                     maxRetries := 3, retryDelay := 5000 },
    completedCalls := [] }

/-- Witness for the amended C9: on a 10-second video the dispatch for 15 s
is skipped outright, and after a serial run of invocations the calls beyond
the video end are still pending. -/
theorem pva_duration_guard_amended_witness :
    performVideoAnalysis shortVideoStore (some 15) .failure 20000 20400 =
      (shortVideoStore, false) ∧
    (∀ c ∈ (runPvaSteps shortVideoStore
        [(some 15, .failure, 20000, 20400)]).callTracker.scheduledCalls,
      (10 : Rat) < (c.timestamp : Rat) → c.status = .pending) :=
  ⟨pva_duration_guard_amended.1 shortVideoStore 15 .failure 20000 20400
     (Or.inr ⟨10, rfl, by norm_num, by norm_num⟩),
   pva_duration_guard_amended.2 shortVideoStore 10
     [(some 15, .failure, 20000, 20400)] rfl (by norm_num)
     (by
       intro c hc hlt
       simp only [shortVideoStore, List.mem_cons, List.not_mem_nil, or_false] at hc
       rcases hc with rfl | rfl <;> rfl)⟩

end LucidStore

end GTAI
